import Mathlib

/-!
Shallow embedding of the entity classification engine of
`iolite_client/entity_factory.py`, together with theorems checking the
natural-language specification against it.

Python values are modelled by `PyVal`; Python dicts by association lists
with first-match lookup (Python dict keys are unique, so first-match
lookup agrees with dict lookup).  Fallible Python functions are modelled
as `Except PyErr`-returning Lean functions; a `raise` becomes an
`Except.error`.  Each raise site of the source is mapped to the Python
exception class it raises (`ValueError`, `NotImplementedError`,
`UnsupportedDeviceError`, `KeyError` for a failing dict subscript).
-/

set_option autoImplicit false

namespace IoliteSpec

/-- A loosely typed Python value, as found in the hub discovery payloads:
strings, integers, booleans, `None`, lists, and string-keyed dicts. -/
inductive PyVal where
  | none : PyVal
  | bool : Bool → PyVal
  | int : Int → PyVal
  | str : String → PyVal
  | list : List PyVal → PyVal
  | dict : List (String × PyVal) → PyVal

/-- A Python dict with string keys, as an ordered association list. -/
abbrev PyDict := List (String × PyVal)

/-- `d.get(k)` without default: `some v` when key `k` is present (first
occurrence), `none` when absent. -/
def pyLookup (d : PyDict) (k : String) : Option PyVal :=
  (d.find? (fun kv => kv.1 == k)).map (fun kv => kv.2)

/-- `d.get(k)` with Python's default of `None`: absence collapses to the
`None` object, exactly as `dict.get` does. -/
def pyGet (d : PyDict) (k : String) : PyVal :=
  (pyLookup d k).getD PyVal.none

/-- Python truthiness (`not x` is true exactly on falsy `x`): `None`,
`False`, `0`, the empty string, the empty list and the empty dict are
falsy; everything else is truthy. -/
def PyVal.falsy : PyVal → Bool
  | .none => true
  | .bool b => !b
  | .int i => i == 0
  | .str s => s.isEmpty
  | .list l => l.isEmpty
  | .dict d => d.isEmpty

/-- Python `v == "lit"` for a string literal: only a string with the same
characters compares equal (case-sensitive, exact). -/
def pyEqStrLit : PyVal → String → Bool
  | .str s, k => s == k
  | _, _ => false

/-- Python `v is None`. -/
def PyVal.isNone : PyVal → Bool
  | .none => true
  | _ => false

/-- Python `s.startswith(p)`: the characters of `p` are an initial
segment of the characters of `s`. -/
def pyStartsWith (s p : String) : Bool :=
  p.data.isPrefixOf s.data

mutual

/-- Python `repr` of a value, as used when a list is interpolated into an
f-string.  Strings are quoted with ASCII single quotes (written `\x27`). -/
def pyRepr : PyVal → String
  | .none => "None"
  | .bool true => "True"
  | .bool false => "False"
  | .int i => toString i
  | .str s => "\x27" ++ s ++ "\x27"
  | .list l => "[" ++ pyReprSeq l ++ "]"
  | .dict d => "\x7b" ++ pyReprEntries d ++ "\x7d"

/-- Comma-separated `repr`s of the elements of a Python list. -/
def pyReprSeq : List PyVal → String
  | [] => ""
  | [x] => pyRepr x
  | x :: xs => pyRepr x ++ ", " ++ pyReprSeq xs

/-- Comma-separated `repr`s of the entries of a Python dict. -/
def pyReprEntries : List (String × PyVal) → String
  | [] => ""
  | [kv] => "\x27" ++ kv.1 ++ "\x27" ++ ": " ++ pyRepr kv.2
  | kv :: kvs => "\x27" ++ kv.1 ++ "\x27" ++ ": " ++ pyRepr kv.2 ++ ", " ++ pyReprEntries kvs

end

/-- Python `str` of a value, as used when it is interpolated into an
f-string: a string stays as is, containers render via `repr`. -/
def pyStr : PyVal → String
  | .str s => s
  | v => pyRepr v

/-- The Python exceptions the classifier can raise, one constructor per
Python exception class.  Both the missing-field checks and the
required-property lookup raise the same class, `ValueError`, so both are
the single `valueError` constructor here, as in the source.
`unsupportedDeviceError` is modelled from the spec (its class lives in
the absent `iolite_client/exceptions.py`): it stores its three
constructor arguments, message object, identifier and raw payload.
`typeError` stands for the `TypeError`/`AttributeError` Python raises
when a payload value has the wrong shape for an operation (a non-dict
property entry, a non-string `modelName` that gets `.startswith`). -/
inductive PyErr where
  | valueError : String → PyErr
  | notImplementedError : String → PyErr
  | unsupportedDeviceError : PyVal → PyVal → PyVal → PyErr
  | keyError : String → PyErr
  | typeError : String → PyErr

/-- The Python exception class of a raised error — what an `except`
clause in a caller can discriminate on. -/
def PyErr.pythonClass : PyErr → String
  | .valueError _ => "ValueError"
  | .notImplementedError _ => "NotImplementedError"
  | .unsupportedDeviceError _ _ _ => "UnsupportedDeviceError"
  | .keyError _ => "KeyError"
  | .typeError _ => "TypeError"

/-- `payload[k]`: a Python dict subscript; raises `KeyError` when absent. -/
def pySubscript (d : PyDict) (k : String) : Except PyErr PyVal :=
  match pyLookup d k with
  | some v => Except.ok v
  | Option.none => Except.error (PyErr.keyError k)

/-- Modelled from the spec: `Room` of the absent `iolite_client/entity.py`
stores its two constructor arguments, identifier and place name. -/
structure Room where
  identifier : PyVal
  place_name : PyVal

/-- Modelled from the spec: the Device variants of the absent
`iolite_client/entity.py` store their constructor arguments verbatim
(identifier, friendly name, owning place identifier, optional
manufacturer, plus the variant-specific attributes), with no
transformation. -/
inductive Device where
  | lamp : PyVal → PyVal → PyVal → PyVal → Device
  | «switch» : PyVal → PyVal → PyVal → PyVal → Device
  | blind : PyVal → PyVal → PyVal → PyVal → PyVal → Device
  | humiditySensor : PyVal → PyVal → PyVal → PyVal → PyVal → PyVal → Device
  | radiatorValve : PyVal → PyVal → PyVal → PyVal → PyVal → PyVal → PyVal → PyVal → Device
  | inFloorValve : PyVal → PyVal → PyVal → PyVal → PyVal → PyVal → PyVal → Device

/-- The identifier every Device variant stores as first argument. -/
def Device.identifier : Device → PyVal
  | .lamp i _ _ _ => i
  | .«switch» i _ _ _ => i
  | .blind i _ _ _ _ => i
  | .humiditySensor i _ _ _ _ _ => i
  | .radiatorValve i _ _ _ _ _ _ _ => i
  | .inFloorValve i _ _ _ _ _ _ => i

/-- The friendly name every Device variant stores as second argument. -/
def Device.friendly_name : Device → PyVal
  | .lamp _ f _ _ => f
  | .«switch» _ f _ _ => f
  | .blind _ f _ _ _ => f
  | .humiditySensor _ f _ _ _ _ => f
  | .radiatorValve _ f _ _ _ _ _ _ => f
  | .inFloorValve _ f _ _ _ _ _ => f

/-- The owning place identifier every Device variant stores as third
argument. -/
def Device.place_identifier : Device → PyVal
  | .lamp _ _ p _ => p
  | .«switch» _ _ p _ => p
  | .blind _ _ p _ _ => p
  | .humiditySensor _ _ p _ _ _ => p
  | .radiatorValve _ _ p _ _ _ _ _ => p
  | .inFloorValve _ _ p _ _ _ _ => p

/-- The optional manufacturer every Device variant stores as fourth
argument. -/
def Device.manufacturer : Device → PyVal
  | .lamp _ _ _ m => m
  | .«switch» _ _ _ m => m
  | .blind _ _ _ m _ => m
  | .humiditySensor _ _ _ m _ _ => m
  | .radiatorValve _ _ _ m _ _ _ _ => m
  | .inFloorValve _ _ _ m _ _ _ => m

/-- Modelled from the spec: `Heating` of the absent
`iolite_client/entity.py` stores its five constructor arguments. -/
structure Heating where
  identifier : PyVal
  name : PyVal
  current_temperature : PyVal
  target_temperature : PyVal
  window_open : PyVal

/-- `_get_prop_optional(properties, key, default)`: the first property
dict whose `name` entry equals `key`; its `value` entry if the dict is
truthy and has a `value` key, else the default. -/
def _get_prop_optional (properties : List PyDict) (key : String) (default : PyVal) : PyVal :=
  match properties.find? (fun p => pyEqStrLit (pyGet p "name") key) with
  | some m =>
      if !(PyVal.dict m).falsy && (pyLookup m "value").isSome then
        (pyLookup m "value").getD PyVal.none
      else default
  | Option.none => default

/-- The `ValueError` `_get_prop` raises, with the f-string message naming
the key and the `name` entries of all properties. -/
def propertyNotFoundError (key : String) (properties : List PyDict) : PyErr :=
  PyErr.valueError
    ("Failed to find " ++ key ++ " in property set. Available: "
      ++ pyRepr (PyVal.list (properties.map (fun p => pyGet p "name"))))

/-- `_get_prop(properties, key)`: the optional lookup with default `None`;
raises `ValueError` when that yields `None`. -/
def _get_prop (properties : List PyDict) (key : String) : Except PyErr PyVal :=
  let val := _get_prop_optional properties key PyVal.none
  if val.isNone then Except.error (propertyNotFoundError key properties)
  else Except.ok val

/-- Interprets `payload["properties"]` as the list of property dicts the
Heater/Blind/HumiditySensor branches iterate over; a value of any other
shape makes the Python iteration/`.get` raise, modelled as `typeError`. -/
def asPropList : List PyVal → Option (List PyDict)
  | [] => some []
  | PyVal.dict d :: rest => (asPropList rest).map (fun l => d :: l)
  | _ => Option.none

/-- Reads `payload["properties"]` and checks it is a list of dicts. -/
def readProperties (payload : PyDict) : Except PyErr (List PyDict) :=
  match pyLookup payload "properties" with
  | Option.none => Except.error (PyErr.keyError "properties")
  | some v =>
      match v with
      | PyVal.list items =>
          match asPropList items with
          | some props => Except.ok props
          | Option.none => Except.error (PyErr.typeError "property entry is not a mapping")
      | _ => Except.error (PyErr.typeError "properties is not a list")

/-- The Heater heuristic of `_create_device` (source lines 170–213),
reached when the model-name signature did not match: radiator-signature
property names first, then the KNX setpoint, else
`UnsupportedDeviceError` listing the available property names. -/
def heaterHeuristic (identifier friendly place_identifier manufacturer current_env_temp : PyVal)
    (properties : List PyDict) (payload : PyDict) : Except PyErr Device :=
  let has_knx_setpoint :=
    properties.any (fun p => pyEqStrLit (pyGet p "name") "heatingTemperatureSetting")
  let has_radiator_props :=
    properties.any (fun p =>
      pyEqStrLit (pyGet p "name") "batteryLevel"
        || pyEqStrLit (pyGet p "name") "valvePosition"
        || pyEqStrLit (pyGet p "name") "heatingMode")
  if has_radiator_props then
    let battery_level := _get_prop_optional properties "batteryLevel" PyVal.none
    let heating_mode := _get_prop_optional properties "heatingMode" PyVal.none
    let valve_position := _get_prop_optional properties "valvePosition" PyVal.none
    Except.ok (Device.radiatorValve identifier friendly place_identifier manufacturer
      current_env_temp battery_level heating_mode valve_position)
  else if has_knx_setpoint then
    match _get_prop properties "heatingTemperatureSetting" with
    | Except.error e => Except.error e
    | Except.ok heating_temperature_setting =>
        let device_status := _get_prop_optional properties "deviceStatus" (PyVal.str "UNKNOWN")
        Except.ok (Device.inFloorValve identifier friendly place_identifier manufacturer
          current_env_temp heating_temperature_setting device_status)
  else
    Except.error (PyErr.unsupportedDeviceError
      (PyVal.str ("Heater with unrecognized property set "
        ++ pyRepr (PyVal.list (properties.map (fun p => pyGet p "name")))))
      identifier (PyVal.dict payload))

/-- `_create_device(identifier, type_name, payload)`: reads
`placeIdentifier` and `friendlyName` by subscript, the optional
`modelName` and `manufacturer` by `get`, then routes on `type_name`. -/
def _create_device (identifier type_name : PyVal) (payload : PyDict) : Except PyErr Device :=
  match pyLookup payload "placeIdentifier" with
  | Option.none => Except.error (PyErr.keyError "placeIdentifier")
  | some place_identifier =>
    let model_name := pyGet payload "modelName"
    let manufacturer := pyGet payload "manufacturer"
    match pyLookup payload "friendlyName" with
    | Option.none => Except.error (PyErr.keyError "friendlyName")
    | some friendly =>
      if pyEqStrLit type_name "Lamp" then
        Except.ok (Device.lamp identifier friendly place_identifier manufacturer)
      else if pyEqStrLit type_name "TwoChannelRockerSwitch" then
        Except.ok (Device.«switch» identifier friendly place_identifier manufacturer)
      else if pyEqStrLit type_name "Heater" then
        match readProperties payload with
        | Except.error e => Except.error e
        | Except.ok properties =>
          let current_env_temp :=
            _get_prop_optional properties "currentEnvironmentTemperature" PyVal.none
          match model_name with
          | PyVal.none =>
              heaterHeuristic identifier friendly place_identifier manufacturer
                current_env_temp properties payload
          | PyVal.str s =>
              if pyStartsWith s "38de6001c3ad" then
                match _get_prop properties "heatingTemperatureSetting" with
                | Except.error e => Except.error e
                | Except.ok heating_temperature_setting =>
                    let device_status :=
                      _get_prop_optional properties "deviceStatus" (PyVal.str "UNKNOWN")
                    Except.ok (Device.inFloorValve identifier friendly place_identifier
                      manufacturer current_env_temp heating_temperature_setting device_status)
              else
                heaterHeuristic identifier friendly place_identifier manufacturer
                  current_env_temp properties payload
          | _ => Except.error (PyErr.typeError "modelName does not support startswith")
      else if pyEqStrLit type_name "Blind" then
        match readProperties payload with
        | Except.error e => Except.error e
        | Except.ok properties =>
          match _get_prop properties "blindLevel" with
          | Except.error e => Except.error e
          | Except.ok blind_level =>
              Except.ok (Device.blind identifier friendly place_identifier manufacturer blind_level)
      else if pyEqStrLit type_name "HumiditySensor" then
        match readProperties payload with
        | Except.error e => Except.error e
        | Except.ok properties =>
          let current_env_temp :=
            _get_prop_optional properties "currentEnvironmentTemperature" PyVal.none
          match _get_prop properties "humidityLevel" with
          | Except.error e => Except.error e
          | Except.ok humidity_level =>
              Except.ok (Device.humiditySensor identifier friendly place_identifier manufacturer
                current_env_temp humidity_level)
      else
        Except.error (PyErr.unsupportedDeviceError type_name identifier (PyVal.dict payload))

/-- `create_room(payload)`. -/
def create_room (payload : PyDict) : Except PyErr Room :=
  let entity_class := pyGet payload "class"
  let identifier := pyGet payload "id"
  if entity_class.falsy then Except.error (PyErr.valueError "Payload missing class")
  else if identifier.falsy then Except.error (PyErr.valueError "Payload missing id")
  else if !(pyEqStrLit entity_class "Room") then
    Except.error (PyErr.notImplementedError
      ("An unsupported entity class was provided when trying to create a room - "
        ++ pyStr entity_class))
  else
    match pyLookup payload "placeName" with
    | Option.none => Except.error (PyErr.keyError "placeName")
    | some place_name => Except.ok ⟨identifier, place_name⟩

/-- `create_device(payload)`. -/
def create_device (payload : PyDict) : Except PyErr Device :=
  let entity_class := pyGet payload "class"
  let identifier := pyGet payload "id"
  if entity_class.falsy then Except.error (PyErr.valueError "Payload missing class")
  else if identifier.falsy then Except.error (PyErr.valueError "Payload missing id")
  else if !(pyEqStrLit entity_class "Device") then
    Except.error (PyErr.notImplementedError
      ("An unsupported entity class was provided when trying to create a device - "
        ++ pyStr entity_class))
  else
    match pyLookup payload "typeName" with
    | Option.none => Except.error (PyErr.keyError "typeName")
    | some type_name => _create_device identifier type_name payload

/-- `create_heating(payload)`: subscripts `id`, `name`,
`targetTemperature` in evaluation order, `get`s the rest. -/
def create_heating (payload : PyDict) : Except PyErr Heating :=
  match pyLookup payload "id" with
  | Option.none => Except.error (PyErr.keyError "id")
  | some i =>
    match pyLookup payload "name" with
    | Option.none => Except.error (PyErr.keyError "name")
    | some n =>
      let current := pyGet payload "currentTemperature"
      match pyLookup payload "targetTemperature" with
      | Option.none => Except.error (PyErr.keyError "targetTemperature")
      | some target => Except.ok ⟨i, n, current, target, pyGet payload "windowOpen"⟩

/-! ## General lemmas about the embedded helpers -/

/-- The predicate `_get_prop_optional` scans with: the entry's `name`
equals the key. -/
def matchesName (key : String) (p : PyDict) : Bool :=
  pyEqStrLit (pyGet p "name") key

theorem _get_prop_optional_eq_find (properties : List PyDict) (key : String) (default : PyVal) :
    _get_prop_optional properties key default =
      match properties.find? (matchesName key) with
      | some m =>
          if !(PyVal.dict m).falsy && (pyLookup m "value").isSome then
            (pyLookup m "value").getD PyVal.none
          else default
      | Option.none => default := rfl

/-- A dict that matches a key by name is non-empty, hence truthy. -/
theorem matchesName_ne_nil (key : String) (p : PyDict) (h : matchesName key p = true) :
    p.isEmpty = false := by
  cases p with
  | nil => simp [matchesName, pyGet, pyLookup, pyEqStrLit] at h
  | cons kv l => rfl

/-- First-match decomposition: if nothing in `pre` matches and `p` does,
the scan over `pre ++ p :: post` selects `p`, whatever `post` holds. -/
theorem find?_first_match (f : PyDict → Bool) (pre post : List PyDict) (p : PyDict)
    (hpre : ∀ q ∈ pre, f q = false) (hp : f p = true) :
    (pre ++ p :: post).find? f = some p := by
  induction pre with
  | nil => simp [List.find?_cons_of_pos, hp]
  | cons a l ih =>
      have ha : f a = false := hpre a (List.mem_cons_self a l)
      have hrest : ∀ q ∈ l, f q = false := fun q hq => hpre q (List.mem_cons_of_mem a hq)
      rw [List.cons_append, List.find?_cons_of_neg _ (by simp [ha])]
      exact ih hrest

/-- When the selected entry stores a `value` (even `None`), the optional
lookup returns it. -/
theorem _get_prop_optional_of_value (properties : List PyDict) (key : String) (default : PyVal)
    (q : PyDict) (v : PyVal)
    (hq : properties.find? (matchesName key) = some q)
    (hv : pyLookup q "value" = some v) :
    _get_prop_optional properties key default = v := by
  have hmatch : matchesName key q = true := List.find?_some hq
  have hne := matchesName_ne_nil key q hmatch
  rw [_get_prop_optional_eq_find, hq]
  simp [PyVal.falsy, hne, hv]

/-- When the selected entry has no `value` key, the optional lookup
returns the default. -/
theorem _get_prop_optional_of_no_value (properties : List PyDict) (key : String) (default : PyVal)
    (q : PyDict)
    (hq : properties.find? (matchesName key) = some q)
    (hv : pyLookup q "value" = Option.none) :
    _get_prop_optional properties key default = default := by
  rw [_get_prop_optional_eq_find, hq]
  simp [hv]

/-- When no entry matches, the optional lookup returns the default. -/
theorem _get_prop_optional_of_absent (properties : List PyDict) (key : String) (default : PyVal)
    (hq : ∀ p ∈ properties, matchesName key p = false) :
    _get_prop_optional properties key default = default := by
  rw [_get_prop_optional_eq_find]
  rw [List.find?_eq_none.mpr (fun p hp => by simp [hq p hp])]

/-- `_get_prop` succeeds with the selected entry's stored non-`None`
value. -/
theorem _get_prop_of_value (properties : List PyDict) (key : String) (q : PyDict) (v : PyVal)
    (hq : properties.find? (matchesName key) = some q)
    (hv : pyLookup q "value" = some v)
    (hnn : v.isNone = false) :
    _get_prop properties key = Except.ok v := by
  unfold _get_prop
  rw [_get_prop_optional_of_value properties key PyVal.none q v hq hv]
  simp [hnn]

/-- `_get_prop` fails with the diagnostic `ValueError` when no entry
matches the key. -/
theorem _get_prop_of_absent (properties : List PyDict) (key : String)
    (hq : ∀ p ∈ properties, matchesName key p = false) :
    _get_prop properties key = Except.error (propertyNotFoundError key properties) := by
  unfold _get_prop
  rw [_get_prop_optional_of_absent properties key PyVal.none hq]
  rfl

/-- On a list of dicts, `asPropList` recovers exactly those dicts. -/
theorem asPropList_map (props : List PyDict) :
    asPropList (props.map PyVal.dict) = some props := by
  induction props with
  | nil => rfl
  | cons p ps ih => simp [asPropList, ih]

/-- `readProperties` succeeds on a payload whose `properties` entry is a
list of dicts. -/
theorem readProperties_eq (payload : PyDict) (props : List PyDict)
    (h : pyLookup payload "properties" = some (PyVal.list (props.map PyVal.dict))) :
    readProperties payload = Except.ok props := by
  simp [readProperties, h, asPropList_map]

/-- The payload shape that routes `create_device` into the Heater branch:
`class == "Device"`, truthy `id`, `typeName == "Heater"`, the two
subscripted fields present, and a `properties` list of dicts. -/
def HeaterPayload (payload : PyDict) (identifier place friendly : PyVal)
    (props : List PyDict) : Prop :=
  pyGet payload "class" = PyVal.str "Device" ∧
  pyGet payload "id" = identifier ∧ identifier.falsy = false ∧
  pyLookup payload "typeName" = some (PyVal.str "Heater") ∧
  pyLookup payload "placeIdentifier" = some place ∧
  pyLookup payload "friendlyName" = some friendly ∧
  pyLookup payload "properties" = some (PyVal.list (props.map PyVal.dict))

/-- Routing a Heater payload: `create_device` reduces to the Heater
branch of `_create_device`, with the model-name test still pending. -/
theorem create_device_heater (payload : PyDict) (identifier place friendly : PyVal)
    (props : List PyDict) (h : HeaterPayload payload identifier place friendly props) :
    create_device payload =
      (match pyGet payload "modelName" with
       | PyVal.none =>
           heaterHeuristic identifier friendly place (pyGet payload "manufacturer")
             (_get_prop_optional props "currentEnvironmentTemperature" PyVal.none) props payload
       | PyVal.str s =>
           if pyStartsWith s "38de6001c3ad" then
             match _get_prop props "heatingTemperatureSetting" with
             | Except.error e => Except.error e
             | Except.ok v =>
                 Except.ok (Device.inFloorValve identifier friendly place
                   (pyGet payload "manufacturer")
                   (_get_prop_optional props "currentEnvironmentTemperature" PyVal.none) v
                   (_get_prop_optional props "deviceStatus" (PyVal.str "UNKNOWN")))
           else
             heaterHeuristic identifier friendly place (pyGet payload "manufacturer")
               (_get_prop_optional props "currentEnvironmentTemperature" PyVal.none) props payload
       | _ => Except.error (PyErr.typeError "modelName does not support startswith")) := by
  obtain ⟨h1, h2, h3, h4, h5, h6, h7⟩ := h
  unfold create_device _create_device
  rw [h1, h2]
  simp only [h4, h5, h6, readProperties_eq payload props h7, h3]
  rfl

/-- The radiator-signature scan of the heuristic, as the source writes
it: any property named `batteryLevel`, `valvePosition` or `heatingMode`. -/
theorem heaterHeuristic_radiator (identifier friendly place_identifier manufacturer current_env_temp : PyVal)
    (props : List PyDict) (payload : PyDict)
    (hrad : props.any (fun p =>
      pyEqStrLit (pyGet p "name") "batteryLevel"
        || pyEqStrLit (pyGet p "name") "valvePosition"
        || pyEqStrLit (pyGet p "name") "heatingMode") = true) :
    heaterHeuristic identifier friendly place_identifier manufacturer current_env_temp props payload =
      Except.ok (Device.radiatorValve identifier friendly place_identifier manufacturer
        current_env_temp
        (_get_prop_optional props "batteryLevel" PyVal.none)
        (_get_prop_optional props "heatingMode" PyVal.none)
        (_get_prop_optional props "valvePosition" PyVal.none)) := by
  unfold heaterHeuristic
  simp only [hrad, if_true]

/-- Without radiator-signature names but with a `heatingTemperatureSetting`
name present, the heuristic takes the KNX-setpoint branch. -/
theorem heaterHeuristic_knx (identifier friendly place_identifier manufacturer current_env_temp : PyVal)
    (props : List PyDict) (payload : PyDict)
    (hrad : props.any (fun p =>
      pyEqStrLit (pyGet p "name") "batteryLevel"
        || pyEqStrLit (pyGet p "name") "valvePosition"
        || pyEqStrLit (pyGet p "name") "heatingMode") = false)
    (hknx : props.any (fun p => pyEqStrLit (pyGet p "name") "heatingTemperatureSetting") = true) :
    heaterHeuristic identifier friendly place_identifier manufacturer current_env_temp props payload =
      (match _get_prop props "heatingTemperatureSetting" with
       | Except.error e => Except.error e
       | Except.ok v =>
           Except.ok (Device.inFloorValve identifier friendly place_identifier manufacturer
             current_env_temp v (_get_prop_optional props "deviceStatus" (PyVal.str "UNKNOWN")))) := by
  unfold heaterHeuristic
  simp only [hrad, hknx, if_true, Bool.false_eq_true, if_false]

/-- With neither signal present, the heuristic raises
`UnsupportedDeviceError` listing the available property names. -/
theorem heaterHeuristic_unsupported (identifier friendly place_identifier manufacturer current_env_temp : PyVal)
    (props : List PyDict) (payload : PyDict)
    (hrad : props.any (fun p =>
      pyEqStrLit (pyGet p "name") "batteryLevel"
        || pyEqStrLit (pyGet p "name") "valvePosition"
        || pyEqStrLit (pyGet p "name") "heatingMode") = false)
    (hknx : props.any (fun p => pyEqStrLit (pyGet p "name") "heatingTemperatureSetting") = false) :
    heaterHeuristic identifier friendly place_identifier manufacturer current_env_temp props payload =
      Except.error (PyErr.unsupportedDeviceError
        (PyVal.str ("Heater with unrecognized property set "
          ++ pyRepr (PyVal.list (props.map (fun p => pyGet p "name")))))
        identifier (PyVal.dict payload)) := by
  unfold heaterHeuristic
  simp only [hrad, hknx, Bool.false_eq_true, if_false]

/-- Either no `modelName` was supplied (`dict.get` gave `None`) or it is a
string that does not start with the floor-valve signature. -/
def NoModelMatch (m : PyVal) : Prop :=
  m = PyVal.none ∨ ∃ s, m = PyVal.str s ∧ pyStartsWith s "38de6001c3ad" = false

/-- A Heater payload without model-signature match runs the property
heuristic. -/
theorem create_device_heater_heuristic (payload : PyDict) (identifier place friendly : PyVal)
    (props : List PyDict) (h : HeaterPayload payload identifier place friendly props)
    (hm : NoModelMatch (pyGet payload "modelName")) :
    create_device payload =
      heaterHeuristic identifier friendly place (pyGet payload "manufacturer")
        (_get_prop_optional props "currentEnvironmentTemperature" PyVal.none) props payload := by
  rw [create_device_heater payload identifier place friendly props h]
  rcases hm with hm | ⟨s, hm, hs⟩
  · rw [hm]
  · rw [hm]
    simp only [hs, Bool.false_eq_true, if_false]

/-! ## Claim C1 -/

/-- C1: for every Heater payload (class `"Device"`, typeName `"Heater"`)
whose `modelName` is a string starting with `"38de6001c3ad"`, the
classifier takes the InFloorValve path — even when radiator-signature
properties such as `batteryLevel` are also present: if a
`heatingTemperatureSetting` property is selected with a stored non-`None`
value `v`, the result is an InFloorValve built from `v` and the optional
`deviceStatus` (default `"UNKNOWN"`); if no property of that name is
present, classification fails with the property-not-found `ValueError`. -/
theorem C1_model_signature_priority (payload : PyDict) (identifier place friendly : PyVal)
    (props : List PyDict) (s : String)
    (h : HeaterPayload payload identifier place friendly props)
    (hm : pyGet payload "modelName" = PyVal.str s)
    (hs : pyStartsWith s "38de6001c3ad" = true) :
    (∀ q v, props.find? (matchesName "heatingTemperatureSetting") = some q →
        pyLookup q "value" = some v → v.isNone = false →
        create_device payload = Except.ok (Device.inFloorValve identifier friendly place
          (pyGet payload "manufacturer")
          (_get_prop_optional props "currentEnvironmentTemperature" PyVal.none) v
          (_get_prop_optional props "deviceStatus" (PyVal.str "UNKNOWN")))) ∧
    ((∀ p ∈ props, matchesName "heatingTemperatureSetting" p = false) →
        create_device payload =
          Except.error (propertyNotFoundError "heatingTemperatureSetting" props)) := by
  constructor
  · intro q v hq hv hnn
    rw [create_device_heater payload identifier place friendly props h, hm]
    simp only [hs, if_true]
    rw [_get_prop_of_value props "heatingTemperatureSetting" q v hq hv hnn]
  · intro habs
    rw [create_device_heater payload identifier place friendly props h, hm]
    simp only [hs, if_true]
    rw [_get_prop_of_absent props "heatingTemperatureSetting" habs]

def batteryProp : PyDict := [("name", PyVal.str "batteryLevel"), ("value", PyVal.int 50)]

def htsProp : PyDict := [("name", PyVal.str "heatingTemperatureSetting"), ("value", PyVal.int 21)]

def valveProp : PyDict := [("name", PyVal.str "valvePosition"), ("value", PyVal.int 3)]

def fooProp : PyDict := [("name", PyVal.str "fooLevel")]

def c1Payload : PyDict :=
  [("class", PyVal.str "Device"), ("id", PyVal.str "h1"), ("typeName", PyVal.str "Heater"),
   ("placeIdentifier", PyVal.str "pl1"), ("friendlyName", PyVal.str "fr1"),
   ("modelName", PyVal.str "38de6001c3ad-XYZ"),
   ("properties", PyVal.list [PyVal.dict batteryProp, PyVal.dict htsProp])]

/-- Witness for C1 at a payload with the model signature, a battery
property and a setpoint of 21. -/
theorem C1_model_signature_priority_witness :
    create_device c1Payload = Except.ok (Device.inFloorValve (PyVal.str "h1") (PyVal.str "fr1")
      (PyVal.str "pl1") PyVal.none PyVal.none (PyVal.int 21) (PyVal.str "UNKNOWN")) :=
  (C1_model_signature_priority c1Payload (PyVal.str "h1") (PyVal.str "pl1") (PyVal.str "fr1")
      [batteryProp, htsProp] "38de6001c3ad-XYZ"
      ⟨rfl, rfl, rfl, rfl, rfl, rfl, rfl⟩ rfl rfl).1 htsProp (PyVal.int 21) rfl rfl rfl

/-! ## Claim C2 -/

/-- C2: for every Heater payload without model-signature match, the
presence of any property named `batteryLevel`, `valvePosition` or
`heatingMode` yields a RadiatorValve built from the three optional
lookups — even when a `heatingTemperatureSetting` property coexists (the
result never depends on it, and it is not required). -/
theorem C2_radiator_signal_priority (payload : PyDict) (identifier place friendly : PyVal)
    (props : List PyDict)
    (h : HeaterPayload payload identifier place friendly props)
    (hm : NoModelMatch (pyGet payload "modelName"))
    (hrad : ∃ p ∈ props,
      (matchesName "batteryLevel" p || matchesName "valvePosition" p
        || matchesName "heatingMode" p) = true) :
    create_device payload = Except.ok (Device.radiatorValve identifier friendly place
      (pyGet payload "manufacturer")
      (_get_prop_optional props "currentEnvironmentTemperature" PyVal.none)
      (_get_prop_optional props "batteryLevel" PyVal.none)
      (_get_prop_optional props "heatingMode" PyVal.none)
      (_get_prop_optional props "valvePosition" PyVal.none)) := by
  rw [create_device_heater_heuristic payload identifier place friendly props h hm]
  exact heaterHeuristic_radiator _ _ _ _ _ props payload (List.any_eq_true.mpr hrad)

def c2Payload : PyDict :=
  [("class", PyVal.str "Device"), ("id", PyVal.str "h2"), ("typeName", PyVal.str "Heater"),
   ("placeIdentifier", PyVal.str "pl2"), ("friendlyName", PyVal.str "fr2"),
   ("properties", PyVal.list [PyVal.dict valveProp, PyVal.dict htsProp])]

/-- Witness for C2 at a payload holding both a `valvePosition` and a
`heatingTemperatureSetting` property and no model name. -/
theorem C2_radiator_signal_priority_witness :
    create_device c2Payload = Except.ok (Device.radiatorValve (PyVal.str "h2") (PyVal.str "fr2")
      (PyVal.str "pl2") PyVal.none PyVal.none PyVal.none PyVal.none (PyVal.int 3)) :=
  C2_radiator_signal_priority c2Payload (PyVal.str "h2") (PyVal.str "pl2") (PyVal.str "fr2")
    [valveProp, htsProp] ⟨rfl, rfl, rfl, rfl, rfl, rfl, rfl⟩ (Or.inl rfl)
    ⟨valveProp, List.mem_cons_self _ _, rfl⟩

/-! ## Claim C7 -/

/-- C7: a Heater payload with no model-signature match and none of the
four signal property names present fails with `UnsupportedDeviceError`
whose message embeds the full list of available property names and which
carries the identifier and the raw payload. -/
theorem C7_unrecognized_property_set (payload : PyDict) (identifier place friendly : PyVal)
    (props : List PyDict)
    (h : HeaterPayload payload identifier place friendly props)
    (hm : NoModelMatch (pyGet payload "modelName"))
    (habs : ∀ p ∈ props,
      matchesName "batteryLevel" p = false ∧ matchesName "valvePosition" p = false ∧
      matchesName "heatingMode" p = false ∧ matchesName "heatingTemperatureSetting" p = false) :
    create_device payload = Except.error (PyErr.unsupportedDeviceError
      (PyVal.str ("Heater with unrecognized property set "
        ++ pyRepr (PyVal.list (props.map (fun p => pyGet p "name")))))
      identifier (PyVal.dict payload)) := by
  rw [create_device_heater_heuristic payload identifier place friendly props h hm]
  refine heaterHeuristic_unsupported _ _ _ _ _ props payload ?_ ?_
  · rw [List.any_eq_false]
    intro p hp
    obtain ⟨h1, h2, h3, _⟩ := habs p hp
    simp only [matchesName] at h1 h2 h3
    simp [h1, h2, h3]
  · rw [List.any_eq_false]
    intro p hp
    have h4 := (habs p hp).2.2.2
    simp only [matchesName] at h4
    simp [h4]

def c7Payload : PyDict :=
  [("class", PyVal.str "Device"), ("id", PyVal.str "h7"), ("typeName", PyVal.str "Heater"),
   ("placeIdentifier", PyVal.str "pl7"), ("friendlyName", PyVal.str "fr7"),
   ("properties", PyVal.list [PyVal.dict fooProp])]

/-- Witness for C7 at a payload with a single unrelated property. -/
theorem C7_unrecognized_property_set_witness :
    create_device c7Payload = Except.error (PyErr.unsupportedDeviceError
      (PyVal.str "Heater with unrecognized property set [\x27fooLevel\x27]")
      (PyVal.str "h7") (PyVal.dict c7Payload)) :=
  C7_unrecognized_property_set c7Payload (PyVal.str "h7") (PyVal.str "pl7") (PyVal.str "fr7")
    [fooProp] ⟨rfl, rfl, rfl, rfl, rfl, rfl, rfl⟩ (Or.inl rfl)
    (by
      intro p hp
      rw [List.mem_singleton] at hp
      subst hp
      exact ⟨rfl, rfl, rfl, rfl⟩)

/-! ## Claim C3 -/

/-- C3 counterexample: a property list whose single entry is named `"k"`
but stores no value.  The entry with the looked-up name is present, yet
`_get_prop` fails with the property-not-found `ValueError` — refuting the
claimed "fails if and only if no entry with that name is present". -/
theorem C3_counterexample :
    matchesName "k" [("name", PyVal.str "k")] = true ∧
    _get_prop [[("name", PyVal.str "k")]] "k"
      = Except.error (propertyNotFoundError "k" [[("name", PyVal.str "k")]]) :=
  ⟨rfl, rfl⟩

/-- C3 (amended): `_get_prop` fails with the `PropertyNotFoundError`
`ValueError` carrying the available property names when no entry with
the key's name is present, and also when the first such entry stores no
value or stores `None`; when the first matching entry stores a
non-`None` value, it returns that value. -/
theorem C3_required_lookup (properties : List PyDict) (key : String) :
    ((∀ p ∈ properties, matchesName key p = false) →
        _get_prop properties key = Except.error (propertyNotFoundError key properties)) ∧
    (∀ q, properties.find? (matchesName key) = some q →
        ((pyLookup q "value" = Option.none ∨ pyLookup q "value" = some PyVal.none) →
            _get_prop properties key = Except.error (propertyNotFoundError key properties)) ∧
        (∀ v, pyLookup q "value" = some v → v.isNone = false →
            _get_prop properties key = Except.ok v)) := by
  refine ⟨_get_prop_of_absent properties key, ?_⟩
  intro q hq
  constructor
  · rintro (hv | hv)
    · unfold _get_prop
      rw [_get_prop_optional_of_no_value properties key PyVal.none q hq hv]
      rfl
    · unfold _get_prop
      rw [_get_prop_optional_of_value properties key PyVal.none q PyVal.none hq hv]
      rfl
  · intro v hv hnn
    exact _get_prop_of_value properties key q v hq hv hnn

/-- Witness for C3 (amended) at a one-entry list with a stored value. -/
theorem C3_required_lookup_witness :
    _get_prop [[("name", PyVal.str "k"), ("value", PyVal.int 5)]] "k"
      = Except.ok (PyVal.int 5) :=
  ((C3_required_lookup [[("name", PyVal.str "k"), ("value", PyVal.int 5)]] "k").2
    [("name", PyVal.str "k"), ("value", PyVal.int 5)] rfl).2 (PyVal.int 5) rfl rfl

/-! ## Claim C6 -/

/-- C6: both lookup helpers scan in list order and select the first entry
whose `name` equals the key exactly; entries after the first match never
influence the selected result, and the optional lookup returns the default
when no entry matches or the first match stores no value. -/
theorem C6_first_match_wins (pre post : List PyDict) (p : PyDict) (key : String) (default : PyVal)
    (hpre : ∀ q ∈ pre, matchesName key q = false) (hp : matchesName key p = true) :
    (_get_prop_optional (pre ++ p :: post) key default = (pyLookup p "value").getD default) ∧
    (∀ v, pyLookup p "value" = some v → v.isNone = false →
        _get_prop (pre ++ p :: post) key = Except.ok v) ∧
    (∀ props, (∀ q ∈ props, matchesName key q = false) →
        _get_prop_optional props key default = default) := by
  have hfind := find?_first_match (matchesName key) pre post p hpre hp
  refine ⟨?_, ?_, ?_⟩
  · cases hv : pyLookup p "value" with
    | none =>
        rw [_get_prop_optional_of_no_value _ key default p hfind hv]
        rfl
    | some v =>
        rw [_get_prop_optional_of_value _ key default p v hfind hv]
        rfl
  · intro v hv hnn
    exact _get_prop_of_value _ key p v hfind hv hnn
  · intro props habs
    exact _get_prop_optional_of_absent props key default habs

/-- Witness for C6 on a list with a duplicated name: the first entry's
value wins. -/
theorem C6_first_match_wins_witness :
    _get_prop_optional [[("name", PyVal.str "dup"), ("value", PyVal.int 1)],
        [("name", PyVal.str "dup"), ("value", PyVal.int 2)]] "dup" PyVal.none
      = PyVal.int 1 :=
  (C6_first_match_wins [] [[("name", PyVal.str "dup"), ("value", PyVal.int 2)]]
      [("name", PyVal.str "dup"), ("value", PyVal.int 1)] "dup" PyVal.none
      (fun q hq => absurd hq (List.not_mem_nil q)) rfl).1

/-! ## Claim C5 -/

/-- `readProperties` raises `KeyError` when the `properties` key is
absent, mirroring the direct subscript of the source. -/
theorem readProperties_absent (payload : PyDict)
    (h : pyLookup payload "properties" = Option.none) :
    readProperties payload = Except.error (PyErr.keyError "properties") := by
  simp [readProperties, h]

def c5NoProps : PyDict :=
  [("class", PyVal.str "Device"), ("id", PyVal.str "h5"), ("typeName", PyVal.str "Heater"),
   ("placeIdentifier", PyVal.str "pl5"), ("friendlyName", PyVal.str "fr5")]

def c5EmptyProps : PyDict := c5NoProps ++ [("properties", PyVal.list [])]

/-- C5 counterexample: a Heater payload with the `properties` key absent
raises `KeyError`, while the same payload with an explicit empty list
reaches the heuristic and raises `UnsupportedDeviceError` — the two
outcomes differ, so absence is not treated as the empty list. -/
theorem C5_counterexample :
    create_device c5NoProps = Except.error (PyErr.keyError "properties") ∧
    create_device c5EmptyProps = Except.error (PyErr.unsupportedDeviceError
      (PyVal.str "Heater with unrecognized property set []") (PyVal.str "h5")
      (PyVal.dict c5EmptyProps)) ∧
    PyErr.pythonClass (PyErr.keyError "properties")
      ≠ PyErr.pythonClass (PyErr.unsupportedDeviceError
          (PyVal.str "Heater with unrecognized property set []") (PyVal.str "h5")
          (PyVal.dict c5EmptyProps)) :=
  ⟨rfl, rfl, by decide⟩

/-- C5 (amended): the property-reading variants (Heater, Blind,
HumiditySensor) read `payload["properties"]` by direct subscript, so an
absent `properties` key raises `KeyError` instead of being treated as an
empty list. -/
theorem C5_absent_properties_keyerror (payload : PyDict) (tn place friendly : PyVal)
    (h1 : pyGet payload "class" = PyVal.str "Device")
    (h2 : (pyGet payload "id").falsy = false)
    (h3 : pyLookup payload "typeName" = some tn)
    (htn : tn = PyVal.str "Heater" ∨ tn = PyVal.str "Blind" ∨ tn = PyVal.str "HumiditySensor")
    (h4 : pyLookup payload "placeIdentifier" = some place)
    (h5 : pyLookup payload "friendlyName" = some friendly)
    (hprops : pyLookup payload "properties" = Option.none) :
    create_device payload = Except.error (PyErr.keyError "properties") := by
  have hrp := readProperties_absent payload hprops
  rcases htn with rfl | rfl | rfl <;>
    (unfold create_device _create_device
     rw [h1]
     simp only [h2, h3, h4, h5, hrp]
     rfl)

/-- Witness for C5 (amended) at the Heater payload lacking `properties`. -/
theorem C5_absent_properties_keyerror_witness :
    create_device c5NoProps = Except.error (PyErr.keyError "properties") :=
  C5_absent_properties_keyerror c5NoProps (PyVal.str "Heater") (PyVal.str "pl5")
    (PyVal.str "fr5") rfl rfl rfl (Or.inl rfl) rfl rfl rfl

/-! ## Claim C8 -/

/-- C8: `create_room` returns a Room with the payload's `id` and
`placeName` when `class == "Room"` and `id` is truthy; fails with the
unsupported-class `NotImplementedError` when `class` is truthy but not
`"Room"` and `id` is truthy; and fails with the missing-field
`ValueError` when `class`, or `id` after a truthy `class`, is falsy
(absent or empty). -/
theorem C8_create_room_contract (payload : PyDict) :
    (∀ pn, pyGet payload "class" = PyVal.str "Room" → (pyGet payload "id").falsy = false →
        pyLookup payload "placeName" = some pn →
        create_room payload = Except.ok ⟨pyGet payload "id", pn⟩) ∧
    ((pyGet payload "class").falsy = false →
        pyEqStrLit (pyGet payload "class") "Room" = false →
        (pyGet payload "id").falsy = false →
        create_room payload = Except.error (PyErr.notImplementedError
          ("An unsupported entity class was provided when trying to create a room - "
            ++ pyStr (pyGet payload "class")))) ∧
    ((pyGet payload "class").falsy = true →
        create_room payload = Except.error (PyErr.valueError "Payload missing class")) ∧
    ((pyGet payload "class").falsy = false → (pyGet payload "id").falsy = true →
        create_room payload = Except.error (PyErr.valueError "Payload missing id")) := by
  refine ⟨?_, ?_, ?_, ?_⟩
  · intro pn h1 h2 h3
    unfold create_room
    rw [h1]
    simp only [h2, h3]
    rfl
  · intro h1 h2 h3
    unfold create_room
    simp only [h1, h2, h3]
    rfl
  · intro h1
    unfold create_room
    simp only [h1]
    rfl
  · intro h1 h2
    unfold create_room
    simp only [h1, h2]
    rfl

def c8Room : PyDict :=
  [("class", PyVal.str "Room"), ("id", PyVal.str "r1"), ("placeName", PyVal.str "Living")]

/-- Witness for C8 at a well-formed Room payload. -/
theorem C8_create_room_contract_witness :
    create_room c8Room = Except.ok ⟨PyVal.str "r1", PyVal.str "Living"⟩ :=
  (C8_create_room_contract c8Room).1 (PyVal.str "Living") rfl rfl rfl

/-! ## Claim C10 -/

/-- C10: several required fields are read by direct dict subscript with no
validation, so their absence surfaces as a plain `KeyError` (a Python
class distinct from the four declared error kinds): `placeName` in
`create_room`, and `typeName`, `placeIdentifier`, `friendlyName` in the
device path — each even with `class` correct and `id` truthy. -/
theorem C10_direct_subscript_keyerror (payload : PyDict) :
    ((pyGet payload "class" = PyVal.str "Room" → (pyGet payload "id").falsy = false →
        pyLookup payload "placeName" = Option.none →
        create_room payload = Except.error (PyErr.keyError "placeName")) ∧
      (pyGet payload "class" = PyVal.str "Device" → (pyGet payload "id").falsy = false →
        pyLookup payload "typeName" = Option.none →
        create_device payload = Except.error (PyErr.keyError "typeName")) ∧
      (∀ tn, pyGet payload "class" = PyVal.str "Device" → (pyGet payload "id").falsy = false →
        pyLookup payload "typeName" = some tn →
        pyLookup payload "placeIdentifier" = Option.none →
        create_device payload = Except.error (PyErr.keyError "placeIdentifier")) ∧
      (∀ tn place, pyGet payload "class" = PyVal.str "Device" →
        (pyGet payload "id").falsy = false →
        pyLookup payload "typeName" = some tn →
        pyLookup payload "placeIdentifier" = some place →
        pyLookup payload "friendlyName" = Option.none →
        create_device payload = Except.error (PyErr.keyError "friendlyName"))) ∧
    (∀ k, PyErr.pythonClass (PyErr.keyError k) = "KeyError") := by
  refine ⟨⟨?_, ?_, ?_, ?_⟩, fun k => rfl⟩
  · intro h1 h2 h3
    unfold create_room
    rw [h1]
    simp only [h2, h3]
    rfl
  · intro h1 h2 h3
    unfold create_device
    rw [h1]
    simp only [h2, h3]
    rfl
  · intro tn h1 h2 h3 h4
    unfold create_device _create_device
    rw [h1]
    simp only [h2, h3, h4]
    rfl
  · intro tn place h1 h2 h3 h4 h5
    unfold create_device _create_device
    rw [h1]
    simp only [h2, h3, h4, h5]
    rfl

def c10Room : PyDict := [("class", PyVal.str "Room"), ("id", PyVal.str "r1")]

/-- Witness for C10 at a Room payload lacking `placeName`. -/
theorem C10_direct_subscript_keyerror_witness :
    create_room c10Room = Except.error (PyErr.keyError "placeName") :=
  (C10_direct_subscript_keyerror c10Room).1.1 rfl rfl rfl

/-! ## Claim C4 -/

/-- The shapes a raised classifier error can take: the two missing-field
`ValueError`s, the property-not-found `ValueError`, the unsupported-class
`NotImplementedError`, `UnsupportedDeviceError`, `KeyError` from a direct
subscript, and `TypeError` on structurally malformed values. -/
def ErrShape (e : PyErr) : Prop :=
  e = PyErr.valueError "Payload missing class" ∨
  e = PyErr.valueError "Payload missing id" ∨
  (∃ key props, e = propertyNotFoundError key props) ∨
  (∃ m, e = PyErr.notImplementedError m) ∨
  (∃ a i pl, e = PyErr.unsupportedDeviceError a i pl) ∨
  (∃ k, e = PyErr.keyError k) ∨
  (∃ m, e = PyErr.typeError m)

theorem ErrShape_missingClass : ErrShape (PyErr.valueError "Payload missing class") :=
  Or.inl rfl

theorem ErrShape_missingId : ErrShape (PyErr.valueError "Payload missing id") :=
  Or.inr (Or.inl rfl)

theorem ErrShape_propertyNotFound (key : String) (props : List PyDict) :
    ErrShape (propertyNotFoundError key props) :=
  Or.inr (Or.inr (Or.inl ⟨key, props, rfl⟩))

theorem ErrShape_notImplemented (m : String) : ErrShape (PyErr.notImplementedError m) :=
  Or.inr (Or.inr (Or.inr (Or.inl ⟨m, rfl⟩)))

theorem ErrShape_unsupported (a i pl : PyVal) : ErrShape (PyErr.unsupportedDeviceError a i pl) :=
  Or.inr (Or.inr (Or.inr (Or.inr (Or.inl ⟨a, i, pl, rfl⟩))))

theorem ErrShape_keyError (k : String) : ErrShape (PyErr.keyError k) :=
  Or.inr (Or.inr (Or.inr (Or.inr (Or.inr (Or.inl ⟨k, rfl⟩)))))

theorem ErrShape_typeError (m : String) : ErrShape (PyErr.typeError m) :=
  Or.inr (Or.inr (Or.inr (Or.inr (Or.inr (Or.inr ⟨m, rfl⟩)))))

/-- A `_get_prop` failure is always the property-not-found `ValueError`. -/
theorem _get_prop_error_shape (props : List PyDict) (key : String) (e : PyErr)
    (h : _get_prop props key = Except.error e) : e = propertyNotFoundError key props := by
  simp only [_get_prop] at h
  split at h
  · exact (Except.error.inj h).symm
  · exact Except.noConfusion h

theorem ErrShape_of_get_prop (props : List PyDict) (key : String) (e : PyErr)
    (h : _get_prop props key = Except.error e) : ErrShape e :=
  (_get_prop_error_shape props key e h).symm ▸ ErrShape_propertyNotFound key props

/-- A `readProperties` failure is a `KeyError` or a `TypeError`. -/
theorem readProperties_error_shape (payload : PyDict) (e : PyErr)
    (h : readProperties payload = Except.error e) :
    (∃ k, e = PyErr.keyError k) ∨ (∃ m, e = PyErr.typeError m) := by
  unfold readProperties at h
  cases hp : pyLookup payload "properties" with
  | none =>
      simp only [hp] at h
      exact Or.inl ⟨_, (Except.error.inj h).symm⟩
  | some v =>
      simp only [hp] at h
      cases v with
      | list items =>
          cases hap : asPropList items with
          | none =>
              simp only [hap] at h
              exact Or.inr ⟨_, (Except.error.inj h).symm⟩
          | some props =>
              simp only [hap] at h
              exact Except.noConfusion h
      | none => exact Or.inr ⟨_, (Except.error.inj h).symm⟩
      | bool b => exact Or.inr ⟨_, (Except.error.inj h).symm⟩
      | int i => exact Or.inr ⟨_, (Except.error.inj h).symm⟩
      | str t => exact Or.inr ⟨_, (Except.error.inj h).symm⟩
      | dict dd => exact Or.inr ⟨_, (Except.error.inj h).symm⟩

theorem ErrShape_of_readProperties (payload : PyDict) (e : PyErr)
    (h : readProperties payload = Except.error e) : ErrShape e := by
  rcases readProperties_error_shape payload e h with ⟨k, rfl⟩ | ⟨m, rfl⟩
  · exact ErrShape_keyError k
  · exact ErrShape_typeError m

/-- A `heaterHeuristic` failure is a property-not-found `ValueError` or an
`UnsupportedDeviceError`. -/
theorem heaterHeuristic_error_shape (identifier friendly place_identifier manufacturer current_env_temp : PyVal)
    (props : List PyDict) (payload : PyDict) (e : PyErr)
    (h : heaterHeuristic identifier friendly place_identifier manufacturer current_env_temp
        props payload = Except.error e) : ErrShape e := by
  unfold heaterHeuristic at h
  cases hrad : props.any (fun p =>
      pyEqStrLit (pyGet p "name") "batteryLevel"
        || pyEqStrLit (pyGet p "name") "valvePosition"
        || pyEqStrLit (pyGet p "name") "heatingMode") with
  | true =>
      simp only [hrad, if_true] at h
      exact Except.noConfusion h
  | false =>
      simp only [hrad, Bool.false_eq_true, if_false] at h
      cases hknx : props.any (fun p => pyEqStrLit (pyGet p "name") "heatingTemperatureSetting") with
      | false =>
          simp only [hknx, Bool.false_eq_true, if_false] at h
          exact (Except.error.inj h) ▸ ErrShape_unsupported _ _ _
      | true =>
          simp only [hknx, if_true] at h
          cases hg : _get_prop props "heatingTemperatureSetting" with
          | error e2 =>
              simp only [hg] at h
              exact (Except.error.inj h) ▸ ErrShape_of_get_prop _ _ _ hg
          | ok v =>
              simp only [hg] at h
              exact Except.noConfusion h

/-- A `_create_device` failure has one of the declared shapes. -/
theorem _create_device_error_shape (identifier type_name : PyVal) (payload : PyDict) (e : PyErr)
    (h : _create_device identifier type_name payload = Except.error e) : ErrShape e := by
  unfold _create_device at h
  cases hpl : pyLookup payload "placeIdentifier" with
  | none =>
      simp only [hpl] at h
      exact (Except.error.inj h) ▸ ErrShape_keyError _
  | some place =>
      simp only [hpl] at h
      cases hfr : pyLookup payload "friendlyName" with
      | none =>
          simp only [hfr] at h
          exact (Except.error.inj h) ▸ ErrShape_keyError _
      | some friendly =>
          simp only [hfr] at h
          cases hL : pyEqStrLit type_name "Lamp" with
          | true =>
              simp only [hL, if_true] at h
              exact Except.noConfusion h
          | false =>
          simp only [hL, Bool.false_eq_true, if_false] at h
          cases hS : pyEqStrLit type_name "TwoChannelRockerSwitch" with
          | true =>
              simp only [hS, if_true] at h
              exact Except.noConfusion h
          | false =>
          simp only [hS, Bool.false_eq_true, if_false] at h
          cases hH : pyEqStrLit type_name "Heater" with
          | true =>
              simp only [hH, if_true] at h
              cases hrp : readProperties payload with
              | error e1 =>
                  simp only [hrp] at h
                  exact (Except.error.inj h) ▸ ErrShape_of_readProperties _ _ hrp
              | ok props =>
                  simp only [hrp] at h
                  cases hm : pyGet payload "modelName" with
                  | none =>
                      simp only [hm] at h
                      exact heaterHeuristic_error_shape _ _ _ _ _ _ _ _ h
                  | str s =>
                      simp only [hm] at h
                      cases hs : pyStartsWith s "38de6001c3ad" with
                      | true =>
                          simp only [hs, if_true] at h
                          cases hg : _get_prop props "heatingTemperatureSetting" with
                          | error e2 =>
                              simp only [hg] at h
                              exact (Except.error.inj h) ▸ ErrShape_of_get_prop _ _ _ hg
                          | ok v =>
                              simp only [hg] at h
                              exact Except.noConfusion h
                      | false =>
                          simp only [hs, Bool.false_eq_true, if_false] at h
                          exact heaterHeuristic_error_shape _ _ _ _ _ _ _ _ h
                  | bool b =>
                      simp only [hm] at h
                      exact (Except.error.inj h) ▸ ErrShape_typeError _
                  | int i =>
                      simp only [hm] at h
                      exact (Except.error.inj h) ▸ ErrShape_typeError _
                  | list l =>
                      simp only [hm] at h
                      exact (Except.error.inj h) ▸ ErrShape_typeError _
                  | dict dd =>
                      simp only [hm] at h
                      exact (Except.error.inj h) ▸ ErrShape_typeError _
          | false =>
          simp only [hH, Bool.false_eq_true, if_false] at h
          cases hB : pyEqStrLit type_name "Blind" with
          | true =>
              simp only [hB, if_true] at h
              cases hrp : readProperties payload with
              | error e1 =>
                  simp only [hrp] at h
                  exact (Except.error.inj h) ▸ ErrShape_of_readProperties _ _ hrp
              | ok props =>
                  simp only [hrp] at h
                  cases hg : _get_prop props "blindLevel" with
                  | error e2 =>
                      simp only [hg] at h
                      exact (Except.error.inj h) ▸ ErrShape_of_get_prop _ _ _ hg
                  | ok v =>
                      simp only [hg] at h
                      exact Except.noConfusion h
          | false =>
          simp only [hB, Bool.false_eq_true, if_false] at h
          cases hHu : pyEqStrLit type_name "HumiditySensor" with
          | true =>
              simp only [hHu, if_true] at h
              cases hrp : readProperties payload with
              | error e1 =>
                  simp only [hrp] at h
                  exact (Except.error.inj h) ▸ ErrShape_of_readProperties _ _ hrp
              | ok props =>
                  simp only [hrp] at h
                  cases hg : _get_prop props "humidityLevel" with
                  | error e2 =>
                      simp only [hg] at h
                      exact (Except.error.inj h) ▸ ErrShape_of_get_prop _ _ _ hg
                  | ok v =>
                      simp only [hg] at h
                      exact Except.noConfusion h
          | false =>
              simp only [hHu, Bool.false_eq_true, if_false] at h
              exact (Except.error.inj h) ▸ ErrShape_unsupported _ _ _

/-- A `create_device` failure has one of the declared shapes. -/
theorem create_device_error_shape (payload : PyDict) (e : PyErr)
    (h : create_device payload = Except.error e) : ErrShape e := by
  unfold create_device at h
  cases hc : (pyGet payload "class").falsy with
  | true =>
      simp only [hc, if_true] at h
      exact (Except.error.inj h) ▸ ErrShape_missingClass
  | false =>
      simp only [hc, Bool.false_eq_true, if_false] at h
      cases hi : (pyGet payload "id").falsy with
      | true =>
          simp only [hi, if_true] at h
          exact (Except.error.inj h) ▸ ErrShape_missingId
      | false =>
          simp only [hi, Bool.false_eq_true, if_false] at h
          cases hq : pyEqStrLit (pyGet payload "class") "Device" with
          | false =>
              simp only [hq, Bool.not_false, if_true] at h
              exact (Except.error.inj h) ▸ ErrShape_notImplemented _
          | true =>
              simp only [hq, Bool.not_true, Bool.false_eq_true, if_false] at h
              cases htn : pyLookup payload "typeName" with
              | none =>
                  simp only [htn] at h
                  exact (Except.error.inj h) ▸ ErrShape_keyError _
              | some tn =>
                  simp only [htn] at h
                  exact _create_device_error_shape _ _ _ _ h

/-- A `create_room` failure has one of the declared shapes. -/
theorem create_room_error_shape (payload : PyDict) (e : PyErr)
    (h : create_room payload = Except.error e) : ErrShape e := by
  unfold create_room at h
  cases hc : (pyGet payload "class").falsy with
  | true =>
      simp only [hc, if_true] at h
      exact (Except.error.inj h) ▸ ErrShape_missingClass
  | false =>
      simp only [hc, Bool.false_eq_true, if_false] at h
      cases hi : (pyGet payload "id").falsy with
      | true =>
          simp only [hi, if_true] at h
          exact (Except.error.inj h) ▸ ErrShape_missingId
      | false =>
          simp only [hi, Bool.false_eq_true, if_false] at h
          cases hq : pyEqStrLit (pyGet payload "class") "Room" with
          | false =>
              simp only [hq, Bool.not_false, if_true] at h
              exact (Except.error.inj h) ▸ ErrShape_notImplemented _
          | true =>
              simp only [hq, Bool.not_true, Bool.false_eq_true, if_false] at h
              cases hpn : pyLookup payload "placeName" with
              | none =>
                  simp only [hpn] at h
                  exact (Except.error.inj h) ▸ ErrShape_keyError _
              | some pn =>
                  simp only [hpn] at h
                  exact Except.noConfusion h

/-- A `create_heating` failure has one of the declared shapes. -/
theorem create_heating_error_shape (payload : PyDict) (e : PyErr)
    (h : create_heating payload = Except.error e) : ErrShape e := by
  unfold create_heating at h
  cases h1 : pyLookup payload "id" with
  | none =>
      simp only [h1] at h
      exact (Except.error.inj h) ▸ ErrShape_keyError _
  | some i =>
      simp only [h1] at h
      cases h2 : pyLookup payload "name" with
      | none =>
          simp only [h2] at h
          exact (Except.error.inj h) ▸ ErrShape_keyError _
      | some n =>
          simp only [h2] at h
          cases h3 : pyLookup payload "targetTemperature" with
          | none =>
              simp only [h3] at h
              exact (Except.error.inj h) ▸ ErrShape_keyError _
          | some t =>
              simp only [h3] at h
              exact Except.noConfusion h

def c4MissingIdPayload : PyDict := [("class", PyVal.str "Device")]

def c4BlindPayload : PyDict :=
  [("class", PyVal.str "Device"), ("id", PyVal.str "b1"), ("typeName", PyVal.str "Blind"),
   ("placeIdentifier", PyVal.str "plb"), ("friendlyName", PyVal.str "frb"),
   ("properties", PyVal.list [])]

/-- C4 counterexample: a missing-field failure and a property-not-found
failure are both raised as the same Python exception class, `ValueError`,
so a caller discriminating exceptions by class cannot tell these two
declared error kinds apart. -/
theorem C4_counterexample :
    create_device c4MissingIdPayload = Except.error (PyErr.valueError "Payload missing id") ∧
    create_device c4BlindPayload = Except.error (PyErr.valueError
      "Failed to find blindLevel in property set. Available: []") ∧
    PyErr.pythonClass (PyErr.valueError "Payload missing id")
      = PyErr.pythonClass (PyErr.valueError
          "Failed to find blindLevel in property set. Available: []") :=
  ⟨rfl, rfl, rfl⟩

/-- C4 (amended): every failure of the three factory entry points has one
of the enumerated shapes: `ValueError` with message `"Payload missing
class"` or `"Payload missing id"` (missing field), the property-not-found
`ValueError` built by `propertyNotFoundError` (message starting `"Failed
to find"`, carrying the available names), `NotImplementedError`
(unsupported class), `UnsupportedDeviceError` (carrying identifier and
raw payload), plus `KeyError` from direct subscripts and `TypeError` on
structurally malformed values.  Missing-field and property-not-found
failures share the Python class `ValueError` and are distinguishable only
by message text, so the four declared kinds collapse to three exception
classes. -/
theorem C4_error_contract (payload : PyDict) (e : PyErr)
    (h : create_room payload = Except.error e ∨ create_device payload = Except.error e ∨
        create_heating payload = Except.error e) :
    ErrShape e := by
  rcases h with h | h | h
  · exact create_room_error_shape payload e h
  · exact create_device_error_shape payload e h
  · exact create_heating_error_shape payload e h

/-- Witness for C4 (amended) at the empty payload, a missing-class
failure of `create_room`. -/
theorem C4_error_contract_witness :
    ErrShape (PyErr.valueError "Payload missing class") :=
  C4_error_contract [] (PyErr.valueError "Payload missing class") (Or.inl rfl)

/-! ## Claim C9 -/

/-- A present key makes `dict.get` return the stored value. -/
theorem pyGet_of_lookup (d : PyDict) (k : String) (v : PyVal)
    (h : pyLookup d k = some v) : pyGet d k = v := by
  simp [pyGet, h]

/-- Inversion of a successful `heaterHeuristic`: the result is the
RadiatorValve or the InFloorValve built from the property lookups. -/
theorem heaterHeuristic_ok_inv (identifier friendly place_identifier manufacturer current_env_temp : PyVal)
    (props : List PyDict) (payload : PyDict) (d : Device)
    (h : heaterHeuristic identifier friendly place_identifier manufacturer current_env_temp
        props payload = Except.ok d) :
    d = Device.radiatorValve identifier friendly place_identifier manufacturer current_env_temp
        (_get_prop_optional props "batteryLevel" PyVal.none)
        (_get_prop_optional props "heatingMode" PyVal.none)
        (_get_prop_optional props "valvePosition" PyVal.none) ∨
    ∃ hts, _get_prop props "heatingTemperatureSetting" = Except.ok hts ∧
      d = Device.inFloorValve identifier friendly place_identifier manufacturer current_env_temp
        hts (_get_prop_optional props "deviceStatus" (PyVal.str "UNKNOWN")) := by
  unfold heaterHeuristic at h
  cases hrad : props.any (fun p =>
      pyEqStrLit (pyGet p "name") "batteryLevel"
        || pyEqStrLit (pyGet p "name") "valvePosition"
        || pyEqStrLit (pyGet p "name") "heatingMode") with
  | true =>
      simp only [hrad, if_true] at h
      exact Or.inl (Except.ok.inj h).symm
  | false =>
      simp only [hrad, Bool.false_eq_true, if_false] at h
      cases hknx : props.any (fun p => pyEqStrLit (pyGet p "name") "heatingTemperatureSetting") with
      | false =>
          simp only [hknx, Bool.false_eq_true, if_false] at h
          exact Except.noConfusion h
      | true =>
          simp only [hknx, if_true] at h
          cases hg : _get_prop props "heatingTemperatureSetting" with
          | error e2 =>
              simp only [hg] at h
              exact Except.noConfusion h
          | ok v =>
              simp only [hg] at h
              exact Or.inr ⟨v, rfl, (Except.ok.inj h).symm⟩

/-- Inversion of a successful `create_device`: the payload's subscripted
fields were present and the device is one of the six variants, each built
from the untransformed extracted values. -/
theorem create_device_ok_inv (payload : PyDict) (d : Device)
    (h : create_device payload = Except.ok d) :
    ∃ place friendly,
      pyLookup payload "placeIdentifier" = some place ∧
      pyLookup payload "friendlyName" = some friendly ∧
      (d = Device.lamp (pyGet payload "id") friendly place (pyGet payload "manufacturer") ∨
       d = Device.«switch» (pyGet payload "id") friendly place (pyGet payload "manufacturer") ∨
       (∃ props lvl, readProperties payload = Except.ok props ∧
          _get_prop props "blindLevel" = Except.ok lvl ∧
          d = Device.blind (pyGet payload "id") friendly place (pyGet payload "manufacturer") lvl) ∨
       (∃ props hum, readProperties payload = Except.ok props ∧
          _get_prop props "humidityLevel" = Except.ok hum ∧
          d = Device.humiditySensor (pyGet payload "id") friendly place
            (pyGet payload "manufacturer")
            (_get_prop_optional props "currentEnvironmentTemperature" PyVal.none) hum) ∨
       (∃ props, readProperties payload = Except.ok props ∧
          d = Device.radiatorValve (pyGet payload "id") friendly place
            (pyGet payload "manufacturer")
            (_get_prop_optional props "currentEnvironmentTemperature" PyVal.none)
            (_get_prop_optional props "batteryLevel" PyVal.none)
            (_get_prop_optional props "heatingMode" PyVal.none)
            (_get_prop_optional props "valvePosition" PyVal.none)) ∨
       (∃ props hts, readProperties payload = Except.ok props ∧
          _get_prop props "heatingTemperatureSetting" = Except.ok hts ∧
          d = Device.inFloorValve (pyGet payload "id") friendly place
            (pyGet payload "manufacturer")
            (_get_prop_optional props "currentEnvironmentTemperature" PyVal.none) hts
            (_get_prop_optional props "deviceStatus" (PyVal.str "UNKNOWN")))) := by
  unfold create_device at h
  cases hc : (pyGet payload "class").falsy with
  | true => simp only [hc, if_true] at h; exact Except.noConfusion h
  | false =>
  simp only [hc, Bool.false_eq_true, if_false] at h
  cases hi : (pyGet payload "id").falsy with
  | true => simp only [hi, if_true] at h; exact Except.noConfusion h
  | false =>
  simp only [hi, Bool.false_eq_true, if_false] at h
  cases hq : pyEqStrLit (pyGet payload "class") "Device" with
  | false =>
      simp only [hq, Bool.not_false, if_true] at h
      exact Except.noConfusion h
  | true =>
  simp only [hq, Bool.not_true, Bool.false_eq_true, if_false] at h
  cases htn : pyLookup payload "typeName" with
  | none => simp only [htn] at h; exact Except.noConfusion h
  | some tn =>
  simp only [htn] at h
  unfold _create_device at h
  cases hpl : pyLookup payload "placeIdentifier" with
  | none => simp only [hpl] at h; exact Except.noConfusion h
  | some place =>
  simp only [hpl] at h
  cases hfr : pyLookup payload "friendlyName" with
  | none => simp only [hfr] at h; exact Except.noConfusion h
  | some friendly =>
  simp only [hfr] at h
  refine ⟨place, friendly, rfl, rfl, ?_⟩
  cases hL : pyEqStrLit tn "Lamp" with
  | true =>
      simp only [hL, if_true] at h
      exact Or.inl (Except.ok.inj h).symm
  | false =>
  simp only [hL, Bool.false_eq_true, if_false] at h
  cases hS : pyEqStrLit tn "TwoChannelRockerSwitch" with
  | true =>
      simp only [hS, if_true] at h
      exact Or.inr (Or.inl (Except.ok.inj h).symm)
  | false =>
  simp only [hS, Bool.false_eq_true, if_false] at h
  cases hH : pyEqStrLit tn "Heater" with
  | true =>
      simp only [hH, if_true] at h
      cases hrp : readProperties payload with
      | error e1 => simp only [hrp] at h; exact Except.noConfusion h
      | ok props =>
      simp only [hrp] at h
      cases hm : pyGet payload "modelName" with
      | none =>
          simp only [hm] at h
          rcases heaterHeuristic_ok_inv _ _ _ _ _ props payload d h with hd | ⟨hts, hg, hd⟩
          · exact Or.inr (Or.inr (Or.inr (Or.inr (Or.inl ⟨props, rfl, hd⟩))))
          · exact Or.inr (Or.inr (Or.inr (Or.inr (Or.inr ⟨props, hts, rfl, hg, hd⟩))))
      | str s =>
          simp only [hm] at h
          cases hs : pyStartsWith s "38de6001c3ad" with
          | true =>
              simp only [hs, if_true] at h
              cases hg : _get_prop props "heatingTemperatureSetting" with
              | error e2 => simp only [hg] at h; exact Except.noConfusion h
              | ok v =>
                  simp only [hg] at h
                  exact Or.inr (Or.inr (Or.inr (Or.inr (Or.inr
                    ⟨props, v, rfl, hg, (Except.ok.inj h).symm⟩))))
          | false =>
              simp only [hs, Bool.false_eq_true, if_false] at h
              rcases heaterHeuristic_ok_inv _ _ _ _ _ props payload d h with hd | ⟨hts, hg, hd⟩
              · exact Or.inr (Or.inr (Or.inr (Or.inr (Or.inl ⟨props, rfl, hd⟩))))
              · exact Or.inr (Or.inr (Or.inr (Or.inr (Or.inr ⟨props, hts, rfl, hg, hd⟩))))
      | bool b => simp only [hm] at h; exact Except.noConfusion h
      | int i => simp only [hm] at h; exact Except.noConfusion h
      | list l => simp only [hm] at h; exact Except.noConfusion h
      | dict dd => simp only [hm] at h; exact Except.noConfusion h
  | false =>
  simp only [hH, Bool.false_eq_true, if_false] at h
  cases hB : pyEqStrLit tn "Blind" with
  | true =>
      simp only [hB, if_true] at h
      cases hrp : readProperties payload with
      | error e1 => simp only [hrp] at h; exact Except.noConfusion h
      | ok props =>
      simp only [hrp] at h
      cases hg : _get_prop props "blindLevel" with
      | error e2 => simp only [hg] at h; exact Except.noConfusion h
      | ok lvl =>
          simp only [hg] at h
          exact Or.inr (Or.inr (Or.inl ⟨props, lvl, rfl, hg, (Except.ok.inj h).symm⟩))
  | false =>
  simp only [hB, Bool.false_eq_true, if_false] at h
  cases hHu : pyEqStrLit tn "HumiditySensor" with
  | true =>
      simp only [hHu, if_true] at h
      cases hrp : readProperties payload with
      | error e1 => simp only [hrp] at h; exact Except.noConfusion h
      | ok props =>
      simp only [hrp] at h
      cases hg : _get_prop props "humidityLevel" with
      | error e2 => simp only [hg] at h; exact Except.noConfusion h
      | ok hum =>
          simp only [hg] at h
          exact Or.inr (Or.inr (Or.inr (Or.inl ⟨props, hum, rfl, hg, (Except.ok.inj h).symm⟩)))
  | false =>
      simp only [hHu, Bool.false_eq_true, if_false] at h
      exact Except.noConfusion h

/-- C9: round-trip — whenever classification succeeds, reading the
entity's stored attributes returns exactly the values extracted from the
payload (identifier, friendly name, place identifier, manufacturer for
every device; blind level, humidity level, radiator fields, heating
setpoint and device status per variant; the Room and Heating fields),
with no transformation applied by the classifier. -/
theorem C9_round_trip (payload : PyDict) :
    (∀ d, create_device payload = Except.ok d →
        d.identifier = pyGet payload "id" ∧
        d.friendly_name = pyGet payload "friendlyName" ∧
        d.place_identifier = pyGet payload "placeIdentifier" ∧
        d.manufacturer = pyGet payload "manufacturer") ∧
    (∀ props, pyLookup payload "properties" = some (PyVal.list (props.map PyVal.dict)) →
        (∀ i f pl m lvl, create_device payload = Except.ok (Device.blind i f pl m lvl) →
            _get_prop props "blindLevel" = Except.ok lvl) ∧
        (∀ i f pl m cet hum,
            create_device payload = Except.ok (Device.humiditySensor i f pl m cet hum) →
            cet = _get_prop_optional props "currentEnvironmentTemperature" PyVal.none ∧
            _get_prop props "humidityLevel" = Except.ok hum) ∧
        (∀ i f pl m cet bat mode vp,
            create_device payload = Except.ok (Device.radiatorValve i f pl m cet bat mode vp) →
            cet = _get_prop_optional props "currentEnvironmentTemperature" PyVal.none ∧
            bat = _get_prop_optional props "batteryLevel" PyVal.none ∧
            mode = _get_prop_optional props "heatingMode" PyVal.none ∧
            vp = _get_prop_optional props "valvePosition" PyVal.none) ∧
        (∀ i f pl m cet hts ds,
            create_device payload = Except.ok (Device.inFloorValve i f pl m cet hts ds) →
            cet = _get_prop_optional props "currentEnvironmentTemperature" PyVal.none ∧
            _get_prop props "heatingTemperatureSetting" = Except.ok hts ∧
            ds = _get_prop_optional props "deviceStatus" (PyVal.str "UNKNOWN"))) ∧
    (∀ r, create_room payload = Except.ok r →
        r.identifier = pyGet payload "id" ∧ r.place_name = pyGet payload "placeName") ∧
    (∀ ht, create_heating payload = Except.ok ht →
        ht.identifier = pyGet payload "id" ∧ ht.name = pyGet payload "name" ∧
        ht.current_temperature = pyGet payload "currentTemperature" ∧
        ht.target_temperature = pyGet payload "targetTemperature" ∧
        ht.window_open = pyGet payload "windowOpen") := by
  refine ⟨?_, ?_, ?_, ?_⟩
  · intro d h
    obtain ⟨place, friendly, hpl, hfr, hd⟩ := create_device_ok_inv payload d h
    have hfr2 := pyGet_of_lookup payload "friendlyName" friendly hfr
    have hpl2 := pyGet_of_lookup payload "placeIdentifier" place hpl
    rcases hd with rfl | rfl | ⟨props0, lvl0, hrp0, hg, rfl⟩ | ⟨props0, hum0, hrp0, hg, rfl⟩ |
      ⟨props0, hrp0, rfl⟩ | ⟨props0, hts0, hrp0, hg, rfl⟩ <;>
      exact ⟨rfl, hfr2.symm, hpl2.symm, rfl⟩
  · intro props hprops
    have hR := readProperties_eq payload props hprops
    refine ⟨?_, ?_, ?_, ?_⟩
    · intro i f pl m lvl h
      obtain ⟨place, friendly, hpl, hfr, hd⟩ := create_device_ok_inv payload _ h
      rcases hd with hd | hd | ⟨props0, lvl0, hrp0, hg, hd⟩ | ⟨props0, hum0, hrp0, hg, hd⟩ |
        ⟨props0, hrp0, hd⟩ | ⟨props0, hts0, hrp0, hg, hd⟩
      · exact Device.noConfusion hd
      · exact Device.noConfusion hd
      · obtain rfl : props0 = props := Except.ok.inj (hrp0.symm.trans hR)
        injection hd with e1 e2 e3 e4 e5
        rw [e5]
        exact hg
      · exact Device.noConfusion hd
      · exact Device.noConfusion hd
      · exact Device.noConfusion hd
    · intro i f pl m cet hum h
      obtain ⟨place, friendly, hpl, hfr, hd⟩ := create_device_ok_inv payload _ h
      rcases hd with hd | hd | ⟨props0, lvl0, hrp0, hg, hd⟩ | ⟨props0, hum0, hrp0, hg, hd⟩ |
        ⟨props0, hrp0, hd⟩ | ⟨props0, hts0, hrp0, hg, hd⟩
      · exact Device.noConfusion hd
      · exact Device.noConfusion hd
      · exact Device.noConfusion hd
      · obtain rfl : props0 = props := Except.ok.inj (hrp0.symm.trans hR)
        injection hd with e1 e2 e3 e4 e5 e6
        rw [e6]
        exact ⟨e5, hg⟩
      · exact Device.noConfusion hd
      · exact Device.noConfusion hd
    · intro i f pl m cet bat mode vp h
      obtain ⟨place, friendly, hpl, hfr, hd⟩ := create_device_ok_inv payload _ h
      rcases hd with hd | hd | ⟨props0, lvl0, hrp0, hg, hd⟩ | ⟨props0, hum0, hrp0, hg, hd⟩ |
        ⟨props0, hrp0, hd⟩ | ⟨props0, hts0, hrp0, hg, hd⟩
      · exact Device.noConfusion hd
      · exact Device.noConfusion hd
      · exact Device.noConfusion hd
      · exact Device.noConfusion hd
      · obtain rfl : props0 = props := Except.ok.inj (hrp0.symm.trans hR)
        injection hd with e1 e2 e3 e4 e5 e6 e7 e8
        exact ⟨e5, e6, e7, e8⟩
      · exact Device.noConfusion hd
    · intro i f pl m cet hts ds h
      obtain ⟨place, friendly, hpl, hfr, hd⟩ := create_device_ok_inv payload _ h
      rcases hd with hd | hd | ⟨props0, lvl0, hrp0, hg, hd⟩ | ⟨props0, hum0, hrp0, hg, hd⟩ |
        ⟨props0, hrp0, hd⟩ | ⟨props0, hts0, hrp0, hg, hd⟩
      · exact Device.noConfusion hd
      · exact Device.noConfusion hd
      · exact Device.noConfusion hd
      · exact Device.noConfusion hd
      · exact Device.noConfusion hd
      · obtain rfl : props0 = props := Except.ok.inj (hrp0.symm.trans hR)
        injection hd with e1 e2 e3 e4 e5 e6 e7
        rw [e6]
        exact ⟨e5, hg, e7⟩
  · intro r h
    unfold create_room at h
    cases hc : (pyGet payload "class").falsy with
    | true => simp only [hc, if_true] at h; exact Except.noConfusion h
    | false =>
    simp only [hc, Bool.false_eq_true, if_false] at h
    cases hi : (pyGet payload "id").falsy with
    | true => simp only [hi, if_true] at h; exact Except.noConfusion h
    | false =>
    simp only [hi, Bool.false_eq_true, if_false] at h
    cases hq : pyEqStrLit (pyGet payload "class") "Room" with
    | false =>
        simp only [hq, Bool.not_false, if_true] at h
        exact Except.noConfusion h
    | true =>
    simp only [hq, Bool.not_true, Bool.false_eq_true, if_false] at h
    cases hpn : pyLookup payload "placeName" with
    | none => simp only [hpn] at h; exact Except.noConfusion h
    | some pn =>
        simp only [hpn] at h
        obtain rfl := (Except.ok.inj h)
        exact ⟨rfl, (pyGet_of_lookup payload "placeName" pn hpn).symm⟩
  · intro ht h
    unfold create_heating at h
    cases h1 : pyLookup payload "id" with
    | none => simp only [h1] at h; exact Except.noConfusion h
    | some i =>
    simp only [h1] at h
    cases h2 : pyLookup payload "name" with
    | none => simp only [h2] at h; exact Except.noConfusion h
    | some n =>
    simp only [h2] at h
    cases h3 : pyLookup payload "targetTemperature" with
    | none => simp only [h3] at h; exact Except.noConfusion h
    | some t =>
        simp only [h3] at h
        obtain rfl := (Except.ok.inj h)
        exact ⟨(pyGet_of_lookup payload "id" i h1).symm,
          (pyGet_of_lookup payload "name" n h2).symm, rfl,
          (pyGet_of_lookup payload "targetTemperature" t h3).symm, rfl⟩

def c9Payload : PyDict :=
  [("class", PyVal.str "Device"), ("id", PyVal.str "b9"), ("typeName", PyVal.str "Blind"),
   ("placeIdentifier", PyVal.str "pl9"), ("friendlyName", PyVal.str "fr9"),
   ("properties", PyVal.list [PyVal.dict [("name", PyVal.str "blindLevel"),
     ("value", PyVal.int 75)]])]

/-- Witness for C9 on a successfully classified Blind payload. -/
theorem C9_round_trip_witness :
    (Device.blind (PyVal.str "b9") (PyVal.str "fr9") (PyVal.str "pl9") PyVal.none
        (PyVal.int 75)).identifier = pyGet c9Payload "id" ∧
    (Device.blind (PyVal.str "b9") (PyVal.str "fr9") (PyVal.str "pl9") PyVal.none
        (PyVal.int 75)).friendly_name = pyGet c9Payload "friendlyName" ∧
    (Device.blind (PyVal.str "b9") (PyVal.str "fr9") (PyVal.str "pl9") PyVal.none
        (PyVal.int 75)).place_identifier = pyGet c9Payload "placeIdentifier" ∧
    (Device.blind (PyVal.str "b9") (PyVal.str "fr9") (PyVal.str "pl9") PyVal.none
        (PyVal.int 75)).manufacturer = pyGet c9Payload "manufacturer" :=
  (C9_round_trip c9Payload).1
    (Device.blind (PyVal.str "b9") (PyVal.str "fr9") (PyVal.str "pl9") PyVal.none
      (PyVal.int 75)) rfl

end IoliteSpec
